import Mathlib

/-
  Verification development for the Lazorkit starter-kit wallet core:
  a shallow embedding of the balance synchronizer, transaction-history
  synchronizer, transfer orchestrator and input validation found in
  `src/lib/solana/connection.ts`, `src/contexts/WalletContext.tsx`,
  `src/hooks/useTransfer.ts`, `src/lib/utils/validation.ts` and
  `src/components/transfer/TransferForm.tsx`, together with theorems about
  the specified behaviour.

  JS numbers are modelled as `Nat`/`Int`/`ℚ` (every concrete value appearing
  in theorems is exactly representable as an IEEE double, so the rational
  model agrees with the source on them); JS promises that resolve or reject
  are modelled as `Except String`; `null`/`undefined` fields as `Option`.
-/

namespace Lazorkit

/-- JS `String.prototype.includes` on lists of characters:
`p` occurs contiguously inside `l`. -/
def listContainsSeq (p l : List Char) : Bool :=
  l.tails.any (fun t => p.isPrefixOf t)

/-- JS `s.includes(pat)`. -/
def jsIncludes (s pat : String) : Bool :=
  listContainsSeq pat.toList s.toList

/-- JS `s.trim()`: strip whitespace from both ends. -/
def jsTrim (s : String) : String :=
  String.mk (((s.toList.dropWhile Char.isWhitespace).reverse.dropWhile
    Char.isWhitespace).reverse)

/-! ## Balance synchronizer

`getWalletBalances` (connection.ts lines 122-149) fetches the SOL balance
first and rethrows its failure; a USDC failure is downgraded to a zero
balance.  `refreshBalances` (WalletContext.tsx lines 91-126) clears the
error state, commits both fetched balances on success, and on failure keeps
the previous balances, recording the message in `balanceError` unless the
message looks like a USDC mint configuration problem, in which case it is
only logged. -/

/-- Result of `getWalletBalances`: both balances in smallest units
(the `fetchedAt` timestamp is omitted; no claim mentions it). -/
structure WalletBalances where
  solBalance : Nat
  usdcBalance : Nat
deriving DecidableEq

/-- `getWalletBalances` from connection.ts, as a function of the outcomes of
the two RPC queries (`getSolBalance` and `getUsdcBalance`).  The 100 ms
inter-call delay is purely temporal and does not affect the value. -/
def getWalletBalances (native usdc : Except String Nat) :
    Except String WalletBalances :=
  match native with
  | .error e => .error e
  | .ok sol =>
      -- "If USDC fetch fails, just use 0 - don't crash the whole balance fetch"
      let usdcBalance : Nat :=
        match usdc with
        | .ok u => u
        | .error _ => 0
      .ok { solBalance := sol, usdcBalance := usdcBalance }

/-- The balance-related state owned by `WalletContextProvider`. -/
structure BalanceState where
  solBalance : Nat
  usdcBalance : Nat
  balanceError : Option String
deriving DecidableEq

/-- The message test in `refreshBalances`'s catch clause:
`message.includes('USDC_MINT_ADDRESS') || message.includes('Invalid public key')`. -/
def isUsdcConfigMessage (msg : String) : Bool :=
  jsIncludes msg "USDC_MINT_ADDRESS" || jsIncludes msg "Invalid public key"

/-- `refreshBalances` from WalletContext.tsx as a state transformer.
`setBalanceError(null)` runs before the fetch, so on the swallowed-error
path `balanceError` ends up `none` as well. -/
def refreshBalances (st : BalanceState) (native usdc : Except String Nat) :
    BalanceState :=
  match getWalletBalances native usdc with
  | .ok b =>
      { solBalance := b.solBalance, usdcBalance := b.usdcBalance
        balanceError := none }
  | .error e =>
      if isUsdcConfigMessage e then
        -- "Only log as warning (not error) if it's USDC config issue"
        { st with balanceError := none }
      else
        { st with balanceError := some e }

/-- Claim C1 (counterexample): starting from a state whose previous USDC
balance is 5 (from an earlier successful fetch), a run whose native query
succeeds and whose USDC query throws does NOT keep the previous token
amount: the published token amount is 0, not 5. -/
theorem refreshBalances_token_failure_discards_previous :
    ¬ ((refreshBalances ⟨1, 5, none⟩ (Except.ok 10)
        (Except.error "token query failed")).usdcBalance = 5) := by
  decide

/-- Claim C1 (amended): for every prior state, whenever the native query
succeeds and the token query throws, the run succeeds (no balance error)
and publishes the fresh native amount together with token amount ZERO —
the previously fetched token amount is always discarded. -/
theorem refreshBalances_token_failure_reports_zero
    (st : BalanceState) (sol : Nat) (msg : String) :
    refreshBalances st (Except.ok sol) (Except.error msg) =
      { solBalance := sol, usdcBalance := 0, balanceError := none } := by
  rfl

/-- Claim C2 (counterexample): a run whose native query fails with a message
containing "Invalid public key" is NOT surfaced to the caller: the catch
clause classifies it as a USDC configuration issue and leaves
`balanceError` empty, contradicting the claim that every native-query
failure surfaces a balance-fetch error. -/
theorem refreshBalances_native_failure_swallowed :
    (refreshBalances ⟨0, 0, none⟩
        (Except.error "Invalid public key input") (Except.ok 7)).balanceError
      = none := by
  decide

/-- Claim C2 (amended): whenever the native query errors, the whole run
fails regardless of the token query's outcome — neither balance is updated
for that run — and the error message is surfaced in `balanceError` unless
it matches the USDC-configuration patterns ("USDC_MINT_ADDRESS" or
"Invalid public key"), in which case the failure is only logged. -/
theorem refreshBalances_native_failure_behavior
    (st : BalanceState) (msg : String) (usdc : Except String Nat) :
    refreshBalances st (Except.error msg) usdc =
      { st with balanceError :=
          if isUsdcConfigMessage msg then none else some msg } := by
  by_cases h : isUsdcConfigMessage msg <;>
    simp [refreshBalances, getWalletBalances, h]

/-! ## Transaction-history synchronizer: instruction parsing

`parseTransactionDetails` (connection.ts lines 157-213) scans the parsed
instruction list of a raw transaction.  A `system`-program `transfer`
matches when the active account is its source or destination; an
`spl-token` `transfer`/`transferChecked` matches unconditionally.  The
first match breaks the loop.  It returns `{ amount, recipientAddress, type }`
— note that it returns NO `tokenType` field. -/

/-- One entry of `transaction.transaction.message.instructions` as consumed
by the parser: the `program` tag, the `parsed.type` tag, and the fields of
`parsed.info` that the parser reads. -/
inductive ParsedInstruction
  | system (ty : String) (source destination : String) (lamports : Nat)
  | splToken (ty : String) (destination : String) (amount : Nat)
  | otherProgram
deriving DecidableEq

/-- The value returned by `parseTransactionDetails`: amount, counterparty
and transaction type.  There is no token-type field. -/
structure ParseResult where
  amount : Int
  recipientAddress : String
  ty : String
deriving DecidableEq

/-- The instruction loop of `parseTransactionDetails`.  A non-matching
instruction falls through to the next one; the first match returns
(`break` in the source). -/
def parseInstructions (userAddr : String) :
    List ParsedInstruction → ParseResult
  | [] => { amount := 0, recipientAddress := "", ty := "other" }
  | i :: rest =>
    match i with
    | .system t source destination lamports =>
        if t = "transfer" then
          if source = userAddr then
            -- "If this wallet is the source, it's sending"
            { amount := (lamports : Int), recipientAddress := destination
              ty := "transfer" }
          else if destination = userAddr then
            -- "If this wallet is the destination, it's receiving"
            { amount := (lamports : Int), recipientAddress := source
              ty := "transfer" }
          else
            parseInstructions userAddr rest
        else
          parseInstructions userAddr rest
    | .splToken t destination amount =>
        if t = "transfer" || t = "transferChecked" then
          { amount := (amount : Int), recipientAddress := destination
            ty := "transfer" }
        else
          parseInstructions userAddr rest
    | .otherProgram => parseInstructions userAddr rest

/-- `parseTransactionDetails`: a transaction with a `null` `transaction`
field (modelled by `none`) yields the defaults. -/
def parseTransactionDetails (instrs : Option (List ParsedInstruction))
    (userAddr : String) : ParseResult :=
  match instrs with
  | none => { amount := 0, recipientAddress := "", ty := "other" }
  | some l => parseInstructions userAddr l

/-! ## Transaction records -/

/-- `TransactionStatus` from constants.ts. -/
inductive TransactionStatus
  | pending
  | confirming
  | confirmed
  | failed
deriving DecidableEq

/-- `StoredTransaction` from types.ts (`timestamp` in epoch milliseconds). -/
structure StoredTransaction where
  signature : String
  timestamp : Int
  ty : String
  tokenType : String
  amount : Int
  recipientAddress : String
  status : TransactionStatus
  description : String
deriving DecidableEq

/-- Left-pad a numeral with zeros to `width` characters. -/
def natToPaddedString (n width : Nat) : String :=
  let s := toString n
  String.mk (List.replicate (width - s.length) '0') ++ s

/-- Rendering of `displayAmount.toFixed(shown)` where
`displayAmount = |amount| / 10^decimals`: round half up to `shown` fraction
digits (the rational-valued counterpart of the double computation; exact
for the magnitudes the app handles). -/
def toFixedDisplay (amountAbs : Nat) (decimals shown : Nat) : String :=
  let denom := 10 ^ decimals
  let scaled := (amountAbs * 10 ^ shown + denom / 2) / denom
  toString (scaled / 10 ^ shown) ++ "." ++
    natToPaddedString (scaled % 10 ^ shown) shown

/-- JS template-literal rendering of a possibly-undefined string. -/
def jsOptionString : Option String → String
  | none => "undefined"
  | some s => s

/-- The fields of a fetched transaction that `refreshTransactionHistory`
reads: `blockTime` (nullable) and the instruction list (`none` models a
`null` `transaction` field). -/
structure TransactionDetails where
  blockTime : Option Int
  instructions : Option (List ParsedInstruction)
deriving DecidableEq

/-- The record built by `refreshTransactionHistory` from a non-null detail
fetch (WalletContext.tsx lines 169-195).  The caller destructures
`tokenType` from `parseTransactionDetails`, but `ParseResult` has no such
field, so the destructured value is `undefined` (`none` here): the decimals
default to 9 and the stored token type to `'SOL'` for every transaction. -/
def resolvedRecord (userAddr sig : String) (d : TransactionDetails) :
    StoredTransaction :=
  let pr := parseTransactionDetails d.instructions userAddr
  -- `const { amount, recipientAddress, type, tokenType } = parseTransactionDetails(...)`
  -- `tokenType` is absent from the returned object: it is `undefined`.
  let tokenTypeField : Option String := none
  let decimals : Nat := if tokenTypeField = some "USDC" then 6 else 9
  let shown : Nat := if decimals = 6 then 2 else 4
  { signature := sig
    timestamp := (d.blockTime.getD 0) * 1000
    ty := pr.ty
    tokenType := tokenTypeField.getD "SOL"
    amount := pr.amount
    recipientAddress := pr.recipientAddress
    status := .confirmed
    description :=
      if pr.amount ≠ 0 then
        toFixedDisplay pr.amount.natAbs decimals shown ++ " " ++
          jsOptionString tokenTypeField ++ " transfer"
      else "Transaction" }

/-- The placeholder record used both when the detail fetch throws and when
it resolves to `null` (WalletContext.tsx lines 196-221); `now` is the
current time (`new Date()`). -/
def placeholderRecord (sig : String) (now : Int) : StoredTransaction :=
  { signature := sig
    timestamp := now
    ty := "other"
    tokenType := "SOL"
    amount := 0
    recipientAddress := ""
    status := .pending
    description := "Pending transaction" }

/-- The outcome of `getTransactionDetails(sig)` as observed by the batch
worker: the promise rejected, resolved to `null`, or resolved to details. -/
inductive DetailFetchOutcome
  | threw (msg : String)
  | notFound
  | found (d : TransactionDetails)
deriving DecidableEq

/-- The per-signature worker inside the batch `map` of
`refreshTransactionHistory`: a throw or a null detail produces the pending
placeholder, a found detail produces the parsed record. -/
def processSignature (userAddr : String) (now : Int) (sig : String)
    (o : DetailFetchOutcome) : StoredTransaction :=
  match o with
  | .threw _ => placeholderRecord sig now
  | .notFound => placeholderRecord sig now
  | .found d => resolvedRecord userAddr sig d

/-- Claim C3 (code evaluated at the failing input): for a transaction whose
single instruction is a system transfer of 500000000 lamports FROM the
active account "alice", the parsed amount is +500000000 — strictly
positive although the active account is the instruction's declared source,
while an incoming transfer of the same size parses to the very same
positive amount.  The sign convention claimed by the spec (and relied on by
the UI's `tx.amount > 0` rendering and the transfer hook's negative
outgoing amounts) is not implemented here. -/
theorem parse_outgoing_transfer_amount_positive :
    (parseTransactionDetails
        (some [ParsedInstruction.system "transfer" "alice" "bob" 500000000])
        "alice").amount = 500000000
    ∧ 0 < (parseTransactionDetails
        (some [ParsedInstruction.system "transfer" "alice" "bob" 500000000])
        "alice").amount
    ∧ (parseTransactionDetails
        (some [ParsedInstruction.system "transfer" "bob" "alice" 500000000])
        "alice").amount = 500000000 := by
  refine ⟨by decide, by decide, by decide⟩

/-- Claim C4 (code evaluated at the failing input): for a transaction whose
first matching instruction is an spl-token transfer (amount 1000000 to
"ataDest") followed by a further matching system transfer, the published
record takes its amount and counterparty from the first instruction and
ignores the second — but its token type is "SOL", not the fungible token's
identifier "USDC": the parse result carries no token-type field, so the
caller's destructured `tokenType` is undefined and defaults to 'SOL'. -/
theorem resolved_spl_record_token_is_sol :
    (resolvedRecord "alice" "sig9"
        ⟨some 1700000000,
          some [ParsedInstruction.splToken "transfer" "ataDest" 1000000,
                ParsedInstruction.system "transfer" "alice" "carol" 7]⟩).tokenType
      = "SOL"
    ∧ (resolvedRecord "alice" "sig9"
        ⟨some 1700000000,
          some [ParsedInstruction.splToken "transfer" "ataDest" 1000000,
                ParsedInstruction.system "transfer" "alice" "carol" 7]⟩).amount
      = 1000000
    ∧ (resolvedRecord "alice" "sig9"
        ⟨some 1700000000,
          some [ParsedInstruction.splToken "transfer" "ataDest" 1000000,
                ParsedInstruction.system "transfer" "alice" "carol" 7]⟩).recipientAddress
      = "ataDest"
    ∧ "SOL" ≠ "USDC" := by
  refine ⟨rfl, by decide, by decide, by decide⟩

/-! ## Batched detail fetching

`refreshTransactionHistory` (WalletContext.tsx lines 131-253) fetches up to
`MAX_TRANSACTION_HISTORY` signatures, publishes `[]` when there are none,
and otherwise resolves details in consecutive batches of `BATCH_SIZE = 5`
(`Promise.all` per batch) with a 200 ms pause after every batch that is not
the last. -/

/-- `const BATCH_SIZE = 5` from WalletContext.tsx. -/
def BATCH_SIZE : Nat := 5

/-- `const MAX_TRANSACTION_HISTORY = 10` from constants.ts. -/
def MAX_TRANSACTION_HISTORY : Nat := 10

/-- The consecutive signature batches produced by the loop
`for (let i = 0; i < signatures.length; i += BATCH_SIZE)` with
`signatures.slice(i, i + BATCH_SIZE)`. -/
def chunkSignatures : List String → List (List String)
  | [] => []
  | a :: as =>
      (a :: as).take BATCH_SIZE :: chunkSignatures ((a :: as).drop BATCH_SIZE)
termination_by l => l.length
decreasing_by
  simp only [List.length_drop, List.length_cons, BATCH_SIZE]
  omega

/-- An observable step of the history refresh loop: a batch of detail
fetches issued concurrently and awaited together, or a deliberate pause. -/
inductive RefreshEvent
  | batchFetch (sigs : List String)
  | pauseMs (n : Nat)
deriving DecidableEq

/-- The sequence of events the loop performs: each iteration awaits one
batch and then pauses 200 ms iff `i + BATCH_SIZE < signatures.length`,
i.e. iff more signatures remain. -/
def historySchedule : List String → List RefreshEvent
  | [] => []
  | a :: as =>
      .batchFetch ((a :: as).take BATCH_SIZE) ::
        (if ((a :: as).drop BATCH_SIZE).isEmpty then []
         else .pauseMs 200 :: historySchedule ((a :: as).drop BATCH_SIZE))
termination_by l => l.length
decreasing_by
  simp only [List.length_drop, List.length_cons, BATCH_SIZE]
  omega

/-- The transaction list published by one `refreshTransactionHistory` run:
empty when no signatures were fetched, otherwise the concatenation, in
batch order, of each batch's records (the final `filter (tx !== null)`
drops nothing because every worker returns a record). -/
def publishList (userAddr : String) (now : Int)
    (outcome : String → DetailFetchOutcome) (sigs : List String) :
    List StoredTransaction :=
  if sigs.isEmpty then []
  else
    ((chunkSignatures sigs).map
      (fun b => b.map (fun s => processSignature userAddr now s (outcome s)))).flatten

/-- The batches are consecutive slices: concatenating them restores the
signature list. -/
theorem chunkSignatures_flatten (l : List String) :
    (chunkSignatures l).flatten = l := by
  suffices H : ∀ (n : Nat) (l : List String), l.length ≤ n →
      (chunkSignatures l).flatten = l from H l.length l le_rfl
  intro n
  induction n with
  | zero =>
    intro l h
    cases l with
    | nil => simp [chunkSignatures]
    | cons a as => simp at h
  | succ n ih =>
    intro l h
    cases l with
    | nil => simp [chunkSignatures]
    | cons a as =>
      have hlen : ((a :: as).drop BATCH_SIZE).length ≤ n := by
        simp only [List.length_drop, List.length_cons, BATCH_SIZE] at h ⊢
        omega
      rw [chunkSignatures, List.flatten_cons, ih _ hlen,
        List.take_append_drop]

/-- Every batch contains at most `BATCH_SIZE` signatures. -/
theorem chunkSignatures_length_le (l : List String) :
    ∀ b ∈ chunkSignatures l, b.length ≤ BATCH_SIZE := by
  suffices H : ∀ (n : Nat) (l : List String), l.length ≤ n →
      ∀ b ∈ chunkSignatures l, b.length ≤ BATCH_SIZE from H l.length l le_rfl
  intro n
  induction n with
  | zero =>
    intro l h
    cases l with
    | nil => intro b hb; simp [chunkSignatures] at hb
    | cons a as => simp at h
  | succ n ih =>
    intro l h
    cases l with
    | nil => intro b hb; simp [chunkSignatures] at hb
    | cons a as =>
      have hlen : ((a :: as).drop BATCH_SIZE).length ≤ n := by
        simp only [List.length_drop, List.length_cons, BATCH_SIZE] at h ⊢
        omega
      rw [chunkSignatures]
      intro b hb
      rcases List.mem_cons.mp hb with hb | hb
      · subst hb
        exact List.length_take_le _ _
      · exact ih _ hlen b hb

/-- The schedule is exactly the batches in order with one fixed 200 ms
pause inserted between every two successive batches. -/
theorem historySchedule_eq_intersperse (l : List String) :
    historySchedule l =
      List.intersperse (.pauseMs 200)
        ((chunkSignatures l).map RefreshEvent.batchFetch) := by
  suffices H : ∀ (n : Nat) (l : List String), l.length ≤ n →
      historySchedule l =
        List.intersperse (.pauseMs 200)
          ((chunkSignatures l).map RefreshEvent.batchFetch) from
    H l.length l le_rfl
  intro n
  induction n with
  | zero =>
    intro l h
    cases l with
    | nil => simp [historySchedule, chunkSignatures]
    | cons a as => simp at h
  | succ n ih =>
    intro l h
    cases l with
    | nil => simp [historySchedule, chunkSignatures]
    | cons a as =>
      rw [historySchedule, chunkSignatures]
      cases hd : (a :: as).drop BATCH_SIZE with
      | nil =>
        simp [chunkSignatures, List.intersperse_singleton]
      | cons x xs =>
        have hlen : (x :: xs).length ≤ n := by
          have hc := congrArg List.length hd
          simp only [List.length_drop, List.length_cons, BATCH_SIZE]
            at hc h ⊢
          omega
        have hreq : chunkSignatures (x :: xs) =
            (x :: xs).take BATCH_SIZE ::
              chunkSignatures ((x :: xs).drop BATCH_SIZE) := by
          rw [chunkSignatures]
        simp [ih _ hlen, hreq, List.intersperse_cons_cons]

/-- The full published list is the pointwise image of the signature list:
each signature contributes exactly one record, at its own position,
depending only on its own fetch outcome. -/
theorem publishList_eq_map (userAddr : String) (now : Int)
    (outcome : String → DetailFetchOutcome) (sigs : List String) :
    publishList userAddr now outcome sigs =
      sigs.map (fun s => processSignature userAddr now s (outcome s)) := by
  unfold publishList
  cases sigs with
  | nil => rfl
  | cons a as =>
    rw [if_neg (by simp)]
    rw [← List.map_flatten, chunkSignatures_flatten]

/-- Claim C9: within one history refresh over any fetched signature list,
detail fetches are issued in consecutive batches of at most
`BATCH_SIZE = 5` signatures that exactly cover the list in order, and the
event sequence interleaves one fixed 200 ms pause between every two
successive batches; since each batch is awaited (`Promise.all`) before the
next event, at most one batch — hence at most 5 detail fetches — is in
flight at any instant. -/
theorem refresh_batches_bounded_with_pauses (sigs : List String) :
    (∀ b ∈ chunkSignatures sigs, b.length ≤ 5)
    ∧ (chunkSignatures sigs).flatten = sigs
    ∧ historySchedule sigs =
        List.intersperse (.pauseMs 200)
          ((chunkSignatures sigs).map RefreshEvent.batchFetch) := by
  exact ⟨chunkSignatures_length_le sigs, chunkSignatures_flatten sigs,
    historySchedule_eq_intersperse sigs⟩

/-- Claim C8: within one refresh, a signature whose detail fetch throws or
returns no detail appears at its own position in the published list as the
`pending` placeholder carrying that signature and the generic description,
and every other signature whose fetch found details resolves to its normal
parsed record — one signature's failure never disturbs another's result. -/
theorem refresh_isolates_signature_failures (userAddr : String) (now : Int)
    (outcome : String → DetailFetchOutcome) (sigs : List String)
    (i : Nat) (s : String) (hs : sigs.get? i = some s)
    (hf : outcome s = .notFound ∨ ∃ m, outcome s = .threw m) :
    (publishList userAddr now outcome sigs).get? i
        = some (placeholderRecord s now)
    ∧ (placeholderRecord s now).status = .pending
    ∧ (placeholderRecord s now).signature = s
    ∧ (placeholderRecord s now).description = "Pending transaction"
    ∧ ∀ (j : Nat) (t : String) (d : TransactionDetails),
        sigs.get? j = some t → outcome t = .found d →
        (publishList userAddr now outcome sigs).get? j
          = some (resolvedRecord userAddr t d) := by
  refine ⟨?_, rfl, rfl, rfl, ?_⟩
  · rw [publishList_eq_map, List.get?_map, hs]
    rcases hf with h | ⟨m, h⟩ <;> simp [processSignature, h]
  · intro j t d ht hd
    rw [publishList_eq_map, List.get?_map, ht]
    simp [processSignature, hd]

/-- Example outcome table used to instantiate the isolation theorem. -/
def exampleOutcomes : String → DetailFetchOutcome :=
  fun s => if s = "a" then .notFound else .found ⟨none, none⟩

/-- Witness for the isolation theorem at a concrete run: two signatures,
the first fetch finds nothing, the second resolves normally. -/
theorem refresh_isolates_signature_failures_witness :
    (publishList "user" 0 exampleOutcomes ["a", "b"]).get? 0
        = some (placeholderRecord "a" 0)
    ∧ (publishList "user" 0 exampleOutcomes ["a", "b"]).get? 1
        = some (resolvedRecord "user" "b" ⟨none, none⟩) := by
  have h := refresh_isolates_signature_failures "user" 0 exampleOutcomes
    ["a", "b"] 0 "a" rfl (Or.inl (by decide))
  exact ⟨h.1, h.2.2.2.2 1 "b" ⟨none, none⟩ rfl (by decide)⟩

/-! ## Transfer orchestrator and in-memory transaction list

`addTransaction` (WalletContext.tsx lines 258-263) prepends one record and
caps the list: `[transaction, ...prev.slice(0, MAX_TRANSACTION_HISTORY - 1)]`.
`transferSol` (useTransfer.ts lines 85-184), after `signAndSendTransaction`
returns a signature, builds exactly one speculative record with the
negative outgoing amount and status `TransactionStatus.CONFIRMING`, and
hands it to `addTransaction` before any chain confirmation is known. -/

/-- `addTransaction` from WalletContext.tsx. -/
def addTransaction (prev : List StoredTransaction)
    (tx : StoredTransaction) : List StoredTransaction :=
  tx :: prev.take (MAX_TRANSACTION_HISTORY - 1)

/-- `LAMPORTS_PER_SOL` from web3.js. -/
def LAMPORTS_PER_SOL : Nat := 1000000000

/-- `solToLamports` from formatting.ts: `Math.floor(sol * LAMPORTS_PER_SOL)`. -/
def solToLamports (sol : ℚ) : Int :=
  Int.floor (sol * (LAMPORTS_PER_SOL : ℚ))

/-- Digits after the decimal point of a nonnegative rational, by long
division, up to `fuel` digits — rendering helper for the JS template
literal `\x7bamount\x7d` (exact for the terminating decimals the UI
produces). -/
def decimalFracDigits (num den : Nat) : Nat → List Char
  | 0 => []
  | fuel + 1 =>
      if num = 0 then []
      else
        Char.ofNat (48 + (num * 10) / den) ::
          decimalFracDigits ((num * 10) % den) den fuel

/-- Decimal rendering of a rational, used for the human-readable transfer
description. -/
def ratToDisplay (q : ℚ) : String :=
  let sign := if q < 0 then "-" else ""
  let n := q.num.natAbs
  let d := q.den
  let fr := decimalFracDigits (n % d) d 20
  if fr.isEmpty then sign ++ toString (n / d)
  else sign ++ toString (n / d) ++ "." ++ String.mk fr

/-- The speculative record built by `transferSol` upon receiving a
signature: `amount: -solToLamports(amount)` ("Negative for outgoing"),
`status: TransactionStatus.CONFIRMING`. -/
def transferSolRecord (recipientAddress : String) (amount : ℚ)
    (sig : String) (now : Int) : StoredTransaction :=
  { signature := sig
    timestamp := now
    ty := "transfer"
    tokenType := "SOL"
    amount := -(solToLamports amount)
    recipientAddress := recipientAddress
    status := .confirming
    description := "Transferred " ++ ratToDisplay amount ++ " SOL to " ++
      recipientAddress.take 10 ++ "..." }

/-- The effect of a successful `transferSol` submission on the in-memory
transaction list: one call to `addTransaction` with the speculative
record. -/
def transferSolSuccess (st : List StoredTransaction)
    (recipientAddress : String) (amount : ℚ) (sig : String) (now : Int) :
    List StoredTransaction :=
  addTransaction st (transferSolRecord recipientAddress amount sig now)

/-- Claim C6 (counterexample): the speculative record prepended on a
successful submission has status `confirming`, not `pending`, as evaluated
on a concrete transfer of 0.5 SOL. -/
theorem transferSolRecord_status_not_pending :
    (transferSolRecord "bob4567890123456789012345678901" (1/2 : ℚ)
        "sig1" 0).status = TransactionStatus.confirming
    ∧ TransactionStatus.confirming ≠ TransactionStatus.pending := by
  exact ⟨rfl, by decide⟩

/-- Claim C6 (amended): on every successful submission exactly one
speculative record is prepended to the in-memory list (which is capped at
`MAX_TRANSACTION_HISTORY`), before any chain confirmation is known, with
status `confirming` — the code's pre-confirmation status, not `pending` —
and an amount equal to the negative of the requested transfer amount in
smallest units. -/
theorem transferSol_prepends_confirming_record
    (st : List StoredTransaction) (recipientAddress : String)
    (amount : ℚ) (sig : String) (now : Int) :
    transferSolSuccess st recipientAddress amount sig now =
      transferSolRecord recipientAddress amount sig now ::
        st.take (MAX_TRANSACTION_HISTORY - 1)
    ∧ (transferSolRecord recipientAddress amount sig now).status =
        TransactionStatus.confirming
    ∧ (transferSolRecord recipientAddress amount sig now).amount =
        -(solToLamports amount)
    ∧ (transferSolRecord recipientAddress amount sig now).signature = sig := by
  exact ⟨rfl, rfl, rfl, rfl⟩

/-! ## Signature uniqueness across list operations (C7) -/

/-- The signatures of a transaction list, in order. -/
def signaturesOf (l : List StoredTransaction) : List String :=
  l.map (fun t => t.signature)

/-- The two operations that mutate the in-memory transaction list. -/
inductive HistoryOp
  | refreshOp (userAddr : String) (now : Int)
      (outcome : String → DetailFetchOutcome) (sigs : List String)
  | addOp (tx : StoredTransaction)

/-- The effect of one operation on the list: a refresh replaces it
wholesale with the published list, an add prepends through
`addTransaction`. -/
def applyHistoryOp (st : List StoredTransaction) :
    HistoryOp → List StoredTransaction
  | .refreshOp u now f sigs => publishList u now f sigs
  | .addOp tx => addTransaction st tx

/-- Claim C7 (counterexample): prepending the same record twice — two
`addTransaction` calls with an identical signature, which nothing in the
code prevents — produces a list whose signatures are NOT pairwise
distinct. -/
theorem duplicate_add_breaks_uniqueness :
    ¬ (signaturesOf
        (applyHistoryOp
          (applyHistoryOp [] (.addOp (placeholderRecord "sig1" 0)))
          (.addOp (placeholderRecord "sig1" 0)))).Nodup := by
  decide

/-- Each worker returns a record carrying exactly its input signature. -/
theorem processSignature_signature (userAddr : String) (now : Int)
    (sig : String) (o : DetailFetchOutcome) :
    (processSignature userAddr now sig o).signature = sig := by
  cases o <;> rfl

/-- The published list's signatures are exactly the fetched signatures. -/
theorem signaturesOf_publishList (userAddr : String) (now : Int)
    (outcome : String → DetailFetchOutcome) (sigs : List String) :
    signaturesOf (publishList userAddr now outcome sigs) = sigs := by
  rw [signaturesOf, publishList_eq_map, List.map_map]
  have : ∀ s : String,
      ((fun t : StoredTransaction => t.signature) ∘
        (fun s => processSignature userAddr now s (outcome s))) s = s := by
    intro s
    exact processSignature_signature userAddr now s (outcome s)
  calc sigs.map _ = sigs.map id := List.map_congr_left (fun s _ => this s)
    _ = sigs := List.map_id sigs

/-- States reachable by sequences of refresh replacements and prepends in
which every refresh uses a duplicate-free signature list and every
prepended record's signature is absent from the current list — the
freshness conditions the code itself does not enforce. -/
inductive GoodReachable : List StoredTransaction → Prop
  | init : GoodReachable []
  | refresh (st : List StoredTransaction) (u : String) (now : Int)
      (f : String → DetailFetchOutcome) (sigs : List String) :
      GoodReachable st → sigs.Nodup →
      GoodReachable (applyHistoryOp st (.refreshOp u now f sigs))
  | add (st : List StoredTransaction) (tx : StoredTransaction) :
      GoodReachable st → tx.signature ∉ signaturesOf st →
      GoodReachable (applyHistoryOp st (.addOp tx))

/-- Claim C7 (amended): pairwise distinctness of signatures holds in every
reachable state only under the extra hypotheses that each bulk
replacement's signature list is duplicate-free and each prepended
signature is fresh; `addTransaction` itself performs no deduplication, so
the invariant is conditional, not unconditional as claimed. -/
theorem good_reachable_signatures_nodup (st : List StoredTransaction)
    (h : GoodReachable st) : (signaturesOf st).Nodup := by
  induction h with
  | init => exact List.nodup_nil
  | refresh st u now f sigs _ hnd _ =>
      rw [applyHistoryOp, signaturesOf_publishList]
      exact hnd
  | add st tx _ hfresh ih =>
      rw [applyHistoryOp, addTransaction, signaturesOf, List.map_cons]
      refine List.nodup_cons.mpr ⟨?_, ?_⟩
      · intro hmem
        apply hfresh
        rw [List.map_take] at hmem
        exact (List.take_sublist _ _).subset hmem
      · rw [List.map_take]
        exact ih.sublist (List.take_sublist _ _)

/-- Witness for the conditional uniqueness invariant: one fresh prepend to
the empty list yields distinct signatures. -/
theorem good_reachable_signatures_nodup_witness :
    (signaturesOf
      (applyHistoryOp [] (.addOp (placeholderRecord "sig1" 0)))).Nodup := by
  exact good_reachable_signatures_nodup _
    (GoodReachable.add [] (placeholderRecord "sig1" 0)
      GoodReachable.init (by decide))

/-! ## Transfer input validation (validation.ts / errors.ts / TransferForm)

`validateAddress` requires a nonempty input, a 32-44 character base58
string (`isValidSolanaAddress` from errors.ts), and a successful
`new PublicKey(address)` (base58 decoding to exactly 32 bytes).
`validateAmount` is called by `validateTransfer` with its `decimals`
parameter left at the default 6, for every token.  `validateTransfer`
combines the two; it performs NO comparison between the recipient and the
sender's own address — that check lives in `validateNotOwnAddress`, which
only `useTransfer` invokes at submission time. -/

/-- The base58 alphabet shared by errors.ts and web3.js. -/
def BASE58_ALPHABET : List Char :=
  "123456789ABCDEFGHJKLMNPQRSTUVWXYZabcdefghijkmnopqrstuvwxyz".toList

/-- `isValidSolanaAddress` from errors.ts: length between 32 and 44 and
every character in the base58 alphabet. -/
def isValidSolanaAddress (address : String) : Bool :=
  if address.length < 32 || address.length > 44 then false
  else address.toList.all (fun c => BASE58_ALPHABET.contains c)

/-- Value of one base58 character, if it is in the alphabet. -/
def b58DigitVal (c : Char) : Option Nat :=
  BASE58_ALPHABET.findIdx? (fun x => x = c)

/-- The numeric value of a base58 string, `none` when some character is
outside the alphabet. -/
def b58DecodeNat (cs : List Char) : Option Nat :=
  cs.foldl
    (fun acc c =>
      match acc, b58DigitVal c with
      | some v, some d => some (v * 58 + d)
      | _, _ => none)
    (some 0)

/-- Number of bytes in the minimal big-endian representation of `v`
(structural on a fuel argument so that it evaluates inside the kernel;
`v` itself is always enough fuel since `v / 256 < v` for positive `v`). -/
def natByteLenAux : Nat → Nat → Nat
  | 0, _ => 0
  | fuel + 1, v => if v = 0 then 0 else natByteLenAux fuel (v / 256) + 1

/-- Number of bytes in the minimal big-endian representation of `v`. -/
def natByteLen (v : Nat) : Nat := natByteLenAux v v

/-- Whether `new PublicKey(address)` succeeds: the base58 decoding (one
leading zero byte per leading '1' plus the big-endian value) spans exactly
32 bytes. -/
def isValidPublicKey (address : String) : Bool :=
  match b58DecodeNat address.toList with
  | none => false
  | some v =>
      let zeros := (address.toList.takeWhile (fun c => c = '1')).length
      zeros + natByteLen v = 32

/-- `validateAddress` from validation.ts. -/
def validateAddress (address : String) : Option String :=
  if jsTrim address = "" then some "Recipient address is required"
  else if ¬ isValidSolanaAddress address then
    some "Invalid Solana address format"
  else if ¬ isValidPublicKey address then some "Invalid Solana address"
  else none

/-- A numeral string as it flows through the transfer form: an optionally
signed mantissa (digits, an optional dot, more digits) with an optional
exponent suffix `e±ddd`.  This covers both what a user can type into the
amount field and — crucially — every string `String(number)` can produce,
including the exponential forms (such as "1e-7") that JS renders for
magnitudes below 1e-6.  Digits are `Nat`s below 10; in the exponent the
`Bool` is the printed sign (`true` = "-"), which `String(number)` always
emits. -/
structure AmountInput where
  neg : Bool
  intDigits : List Nat
  fracDigits : Option (List Nat)
  exponent : Option (Bool × List Nat)
deriving DecidableEq

/-- Whether the numeral renders as the empty string (the `!amount ||
amount.trim() === ''` test). -/
def AmountInput.isEmptyString (a : AmountInput) : Bool :=
  !a.neg && a.intDigits.isEmpty && a.fracDigits.isNone && a.exponent.isNone

/-- Value of a digit list read most-significant first. -/
def digitsVal (ds : List Nat) : Nat :=
  ds.foldl (fun acc d => acc * 10 + d) 0

/-- JS `parseFloat` on the numeral: `NaN` (`none`) when there is no
mantissa digit at all, otherwise the signed decimal value scaled by the
exponent (an exponent marker without digits contributes a factor of
`10^0`, as `parseFloat` stops at the last valid character). -/
def AmountInput.parseFloat (a : AmountInput) : Option ℚ :=
  if a.intDigits.isEmpty && (a.fracDigits.getD []).isEmpty then none
  else
    let fds := a.fracDigits.getD []
    let mantissa : ℚ :=
      (digitsVal a.intDigits : ℚ) + (digitsVal fds : ℚ) / ((10 : ℚ) ^ fds.length)
    let magnitude : ℚ :=
      match a.exponent with
      | none => mantissa
      | some (true, eds) => mantissa / ((10 : ℚ) ^ digitsVal eds)
      | some (false, eds) => mantissa * ((10 : ℚ) ^ digitsVal eds)
    some (if a.neg then -magnitude else magnitude)

/-- `(amount.split('.')[1] || '').length`: the number of characters after
the first decimal point.  Without a dot (e.g. "1e-7") this is 0; with both
a dot and an exponent (e.g. "1.5e-7" → "5e-7") the exponent marker, its
sign and its digits all count. -/
def AmountInput.decimalCount (a : AmountInput) : Nat :=
  match a.fracDigits with
  | none => 0
  | some fds =>
      fds.length +
        match a.exponent with
        | none => 0
        | some (_, eds) => 2 + eds.length

/-- The result object of `validateAmount`. -/
structure AmountValidation where
  isValid : Bool
  error : Option String
deriving DecidableEq

/-- `validateAmount` from validation.ts; `decimals` is its optional
parameter, which every caller in the repository leaves at the default 6. -/
def validateAmount (amount : AmountInput) (balance : ℚ) (decimals : Nat) :
    AmountValidation :=
  if amount.isEmptyString then
    { isValid := false, error := some "Amount is required" }
  else
    match amount.parseFloat with
    | none => { isValid := false, error := some "Please enter a valid amount" }
    | some parsed =>
      if parsed ≤ 0 then
        { isValid := false, error := some "Amount must be greater than 0" }
      else if balance < parsed then
        { isValid := false, error := some "Insufficient balance" }
      else if (10000 : ℚ) < parsed then
        { isValid := false
          error := some "Amount exceeds maximum of 10000. Please verify." }
      else if decimals < amount.decimalCount then
        { isValid := false
          error := some ("Too many decimal places (max " ++
            toString decimals ++ ")") }
      else { isValid := true, error := none }

/-- The result object of `validateTransfer`. -/
structure TransferValidation where
  isValid : Bool
  addressError : Option String
  amountError : Option String
deriving DecidableEq

/-- `validateTransfer` from validation.ts: address check plus amount check
with the default 6 decimals; `isValid = !addressError && amountValidation.isValid`. -/
def validateTransfer (recipientAddress : String) (amount : AmountInput)
    (balance : ℚ) : TransferValidation :=
  let addressError := validateAddress recipientAddress
  let amountValidation := validateAmount amount balance 6
  { isValid := addressError.isNone && amountValidation.isValid
    addressError := addressError
    amountError := amountValidation.error }

/-- `validateNotOwnAddress` from validation.ts, called only by
`useTransfer.validateRecipient` at submission time. -/
def validateNotOwnAddress (userAddress recipientAddress : String) :
    Option String :=
  if userAddress = recipientAddress then
    some "Cannot send to your own address"
  else none

/-- `lamportsToSol` from formatting.ts. -/
def lamportsToSol (lamports : Nat) : ℚ :=
  (lamports : ℚ) / (LAMPORTS_PER_SOL : ℚ)

/-- `usdcToToken` from formatting.ts (`USDC_DECIMALS = 6`). -/
def usdcToToken (amount : Nat) : ℚ :=
  (amount : ℚ) / ((10 : ℚ) ^ 6)

/-- The balance the form validates against:
`tokenType === 'SOL' ? lamportsToSol(solBalance) : usdcToToken(usdcBalance)`
(TransferForm.tsx line 44). -/
def formBalance (tokenType : String) (solBalance usdcBalance : Nat) : ℚ :=
  if tokenType = "SOL" then lamportsToSol solBalance
  else usdcToToken usdcBalance

/-- The validation the form recomputes on every input change
(TransferForm.tsx lines 49-53), as a function of the amount numeral that
reaches `validateTransfer`. -/
def formValidate (tokenType recipientAddress : String)
    (amount : AmountInput) (solBalance usdcBalance : Nat) :
    TransferValidation :=
  validateTransfer recipientAddress amount
    (formBalance tokenType solBalance usdcBalance)

/-! ### The form's amount round-trip through `String(number)`

The form does not validate the typed amount string directly: it computes
`parseAmountInput(amount) || 0` (a number) and validates
`String(parsedAmount)` (TransferForm.tsx lines 50-51).  `String` renders
magnitudes in `[1e-6, 1e21)` as plain decimals but anything smaller in
exponential notation (ECMAScript Number::toString), e.g.
`String(0.0000001) === "1e-7"`. -/

/-- `parseAmountInput` from formatting.ts.  The `.trim().replace(/[$,\s]/g,
'')` cleaning is the identity on the numeral shapes modelled here, so only
the `parseFloat` and the `NaN`/non-positive rejection remain. -/
def parseAmountInput (input : AmountInput) : Option ℚ :=
  match input.parseFloat with
  | none => none
  | some parsed => if parsed ≤ 0 then none else some parsed

/-- Multiplicity of `p` in `n`, structural on a fuel argument (`n` itself
is always enough fuel). -/
def pMult (p : Nat) : Nat → Nat → Nat
  | 0, _ => 0
  | fuel + 1, n => if 2 ≤ p ∧ n ≠ 0 ∧ n % p = 0 then pMult p fuel (n / p) + 1 else 0

/-- Base-10 digits of `n`, most significant first, structural on fuel. -/
def natDigitsAux : Nat → Nat → List Nat
  | 0, _ => []
  | fuel + 1, n => if n = 0 then [] else natDigitsAux fuel (n / 10) ++ [n % 10]

/-- Base-10 digits of `n`, most significant first (`[0]` for zero). -/
def natDigits (n : Nat) : List Nat :=
  if n = 0 then [0] else natDigitsAux n n

/-- The ECMAScript `Number::toString(10)` algorithm on the fraction
`num / den` in lowest terms, producing the numeral `String(x)` yields.
The value is written as `s × 10^(n-k)` with `s` the `k` significant
digits; plain decimal notation is used for `-6 < n ≤ 21`, exponential
notation (always with an explicit exponent sign) otherwise.  A JS double's
value always has a power-of-two denominator, so `den = 2^a·5^b` and
`|num|·10^max(a,b)/den` is exact for every input this pipeline can
produce. -/
def jsNumberLiteralOf (num : Int) (den : Nat) : AmountInput :=
  if num = 0 then
    { neg := false, intDigits := [0], fracDigits := none, exponent := none }
  else
    let neg := num < 0
    let d := max (pMult 2 den den) (pMult 5 den den)
    let m := (num.natAbs * 10 ^ d) / den
    let t := pMult 10 m m
    let s := m / 10 ^ t
    let sd := natDigits s
    let k := sd.length
    let n : Int := ((natDigits m).length : Int) - (d : Int)
    if (k : Int) ≤ n ∧ n ≤ 21 then
      { neg := neg, intDigits := sd ++ List.replicate (n - (k : Int)).toNat 0
        fracDigits := none, exponent := none }
    else if 0 < n ∧ n ≤ 21 then
      { neg := neg, intDigits := sd.take n.toNat
        fracDigits := some (sd.drop n.toNat), exponent := none }
    else if -6 < n ∧ n ≤ 0 then
      { neg := neg, intDigits := [0]
        fracDigits := some (List.replicate (-n).toNat 0 ++ sd)
        exponent := none }
    else if n ≤ -6 then
      { neg := neg, intDigits := sd.take 1
        fracDigits := if 1 < k then some (sd.drop 1) else none
        exponent := some (true, natDigits (1 - n).toNat) }
    else
      { neg := neg, intDigits := sd.take 1
        fracDigits := if 1 < k then some (sd.drop 1) else none
        exponent := some (false, natDigits (n - 1).toNat) }

/-- `String(x)` for a rational `x`. -/
def jsNumberToLiteral (q : ℚ) : AmountInput :=
  jsNumberLiteralOf q.num q.den

/-- The amount numeral the form actually hands to `validateTransfer`:
`String(parseAmountInput(amount) || 0)`. -/
def formAmountLiteral (typed : AmountInput) : AmountInput :=
  jsNumberToLiteral ((parseAmountInput typed).getD 0)

/-- The whole validation pipeline the form runs on one typed amount:
round-trip through number parsing and `String` rendering, then
`validateTransfer` against the selected token's balance. -/
def formPipelineValidate (tokenType recipientAddress : String)
    (typed : AmountInput) (solBalance usdcBalance : Nat) :
    TransferValidation :=
  formValidate tokenType recipientAddress (formAmountLiteral typed)
    solBalance usdcBalance

/-- A syntactically valid, on-curve-irrelevant 32-byte address (the system
program id): 32 base58 '1's decode to 32 zero bytes. -/
def SELF_ADDRESS : String := "11111111111111111111111111111111"

/-- The numeral "1". -/
def oneAmount : AmountInput :=
  { neg := false, intDigits := [1], fracDigits := none, exponent := none }

/-- `SELF_ADDRESS` passes `validateAddress`: 32 base58 characters decoding
to exactly 32 bytes. -/
theorem validateAddress_self_address : validateAddress SELF_ADDRESS = none := by
  decide

/-- The numeral "1" parses to the rational 1. -/
theorem oneAmount_parseFloat : oneAmount.parseFloat = some 1 := by
  norm_num [AmountInput.parseFloat, oneAmount, digitsVal]

/-- Amount "1" against balance 2 passes `validateAmount` with the default
6-decimal limit. -/
theorem validateAmount_one_balance_two :
    (validateAmount oneAmount 2 6).isValid = true := by
  rw [validateAmount, oneAmount_parseFloat]
  norm_num [AmountInput.isEmptyString, oneAmount, AmountInput.decimalCount]

/-- Claim C5 (counterexample): with the recipient equal to the sender's own
address `SELF_ADDRESS`, amount "1" and balance 2, the form's computed
validity flag is TRUE — `validateTransfer` never compares the recipient
with the sender, so a self-transfer is reported as submittable. -/
theorem validateTransfer_self_recipient_is_valid :
    (validateTransfer SELF_ADDRESS oneAmount (2 : ℚ)).isValid = true := by
  rw [validateTransfer]
  simp only [validateAddress_self_address, validateAmount_one_balance_two,
    Option.isNone_none, Bool.and_self, Bool.true_and]

/-- Claim C5 (amended): for every sender address that passes address
validation and every amount that passes amount validation, the form's
computed validity flag for a transfer to the sender's own address is true
(self-transfers are NOT rejected by the form); the self-transfer is
instead rejected at submission time by `validateNotOwnAddress` inside the
transfer hook, with the distinct message "Cannot send to your own
address". -/
theorem validateTransfer_self_recipient_amended
    (senderAddress : String) (amount : AmountInput) (balance : ℚ)
    (haddr : validateAddress senderAddress = none)
    (hamount : (validateAmount amount balance 6).isValid = true) :
    (validateTransfer senderAddress amount balance).isValid = true
    ∧ validateNotOwnAddress senderAddress senderAddress =
        some "Cannot send to your own address" := by
  constructor
  · rw [validateTransfer]
    simp only [haddr, Option.isNone_none, hamount, Bool.and_self, Bool.true_and]
  · rw [validateNotOwnAddress, if_pos rfl]

/-- Witness for the amended self-transfer statement at the concrete inputs
of the counterexample. -/
theorem validateTransfer_self_recipient_amended_witness :
    (validateTransfer SELF_ADDRESS oneAmount (2 : ℚ)).isValid = true
    ∧ validateNotOwnAddress SELF_ADDRESS SELF_ADDRESS =
        some "Cannot send to your own address" := by
  exact validateTransfer_self_recipient_amended SELF_ADDRESS oneAmount 2
    validateAddress_self_address validateAmount_one_balance_two

/-- On every code path, `validateAmount` with the default 6-decimal limit
rejects an amount string with more than 6 characters after its decimal
point, whatever the balance: each earlier branch also reports invalid. -/
theorem validateAmount_six_decimal_invalid (amount : AmountInput)
    (balance : ℚ) (hfrac : 6 < amount.decimalCount) :
    (validateAmount amount balance 6).isValid = false := by
  rw [validateAmount]
  split
  · rfl
  · split
    · rfl
    · split
      · rfl
      · split
        · rfl
        · split
          · rfl
          · rfl

/-- The typed form input "0.0000001": 7 decimal places, value 1e-7. -/
def smallSevenDecimals : AmountInput :=
  { neg := false, intDigits := [0], fracDigits := some [0, 0, 0, 0, 0, 0, 1]
    exponent := none }

/-- The typed form input "0.1234567": 7 decimal places, value above 1e-6. -/
def largeSevenDecimals : AmountInput :=
  { neg := false, intDigits := [0], fracDigits := some [1, 2, 3, 4, 5, 6, 7]
    exponent := none }

/-- "0.0000001" survives `parseAmountInput` with value 1/10^7. -/
theorem parseAmountInput_smallSeven :
    parseAmountInput smallSevenDecimals = some ((1 : ℚ) / 10000000) := by
  norm_num [parseAmountInput, AmountInput.parseFloat, smallSevenDecimals,
    digitsVal]

/-- "0.1234567" survives `parseAmountInput` with value 1234567/10^7. -/
theorem parseAmountInput_largeSeven :
    parseAmountInput largeSevenDecimals = some ((1234567 : ℚ) / 10000000) := by
  norm_num [parseAmountInput, AmountInput.parseFloat, largeSevenDecimals,
    digitsVal]

/-- 1/10^7 in normalized numerator/denominator form. -/
theorem one_tenMillionth_eq_mk :
    ((1 : ℚ) / 10000000) =
      (⟨1, 10000000, by norm_num, by norm_num [Nat.Coprime]⟩ : ℚ) := by
  rw [Rat.mk'_eq_divInt, Rat.divInt_eq_div]
  norm_num

/-- 1234567/10^7 in normalized numerator/denominator form. -/
theorem largeSeven_value_eq_mk :
    ((1234567 : ℚ) / 10000000) =
      (⟨1234567, 10000000, by norm_num, by norm_num [Nat.Coprime]⟩ : ℚ) := by
  rw [Rat.mk'_eq_divInt, Rat.divInt_eq_div]
  norm_num

/-- `String(0.0000001)` is the exponential numeral "1e-7": no characters
after a decimal point at all. -/
theorem formAmountLiteral_smallSeven :
    formAmountLiteral smallSevenDecimals =
      { neg := false, intDigits := [1], fracDigits := none
        exponent := some (true, [7]) } := by
  rw [formAmountLiteral, parseAmountInput_smallSeven, one_tenMillionth_eq_mk]
  decide

/-- `String(0.1234567)` is the plain decimal numeral "0.1234567" again:
7 characters after the decimal point. -/
theorem formAmountLiteral_largeSeven :
    formAmountLiteral largeSevenDecimals = largeSevenDecimals := by
  rw [formAmountLiteral, parseAmountInput_largeSeven, largeSeven_value_eq_mk]
  decide

/-- The balance the form uses for SOL with 2000000000 lamports. -/
theorem formBalance_sol_two :
    formBalance "SOL" 2000000000 0 = 2 := by
  norm_num [formBalance, lamportsToSol, LAMPORTS_PER_SOL]

/-- The rendered numeral "1e-7" passes `validateAmount` against balance 2:
its decimal count is 0, so the 6-decimal check never fires. -/
theorem validateAmount_one_e_minus_seven :
    (validateAmount
      { neg := false, intDigits := [1], fracDigits := none
        exponent := some (true, [7]) } 2 6).isValid = true := by
  have hpf : (AmountInput.parseFloat
      { neg := false, intDigits := [1], fracDigits := none
        exponent := some (true, [7]) }) = some ((1 : ℚ) / 10000000) := by
    norm_num [AmountInput.parseFloat, digitsVal]
  rw [validateAmount, hpf]
  norm_num [AmountInput.isEmptyString, AmountInput.decimalCount]

/-- Claim C10 (counterexample): the typed form input "0.0000001" has 7
decimal places — more than 6 — yet with SOL selected and a funded balance
the form marks it VALID: the form validates `String(parseAmountInput(x) ||
0)`, and JS renders the value 1e-7 as "1e-7", whose decimal count is 0. -/
theorem seven_decimal_input_passes_validation :
    smallSevenDecimals.decimalCount = 7
    ∧ (formPipelineValidate "SOL" SELF_ADDRESS smallSevenDecimals
        2000000000 0).isValid = true := by
  constructor
  · decide
  · rw [formPipelineValidate, formValidate, formAmountLiteral_smallSeven,
      formBalance_sol_two, validateTransfer]
    simp only [validateAddress_self_address, validateAmount_one_e_minus_seven,
      Option.isNone_none, Bool.true_and]

/-- Claim C10 (amended): for every form input and every selected token —
including native SOL with its 9 on-chain decimals — the 6-decimal limit is
enforced on the re-rendered amount string `String(parseAmountInput(x) ||
0)`: whenever that string has more than 6 characters after its decimal
point, the form marks the amount invalid.  Typed amounts below 1e-6,
however, re-render in exponential notation (such as "1e-7"), whose decimal
count can drop to 6 or fewer, so an input typed with more than 6 decimal
places can still be marked valid. -/
theorem six_decimal_limit_on_rendered_amount
    (tokenType recipientAddress : String) (typed : AmountInput)
    (solBalance usdcBalance : Nat)
    (hfrac : 6 < (formAmountLiteral typed).decimalCount) :
    (formPipelineValidate tokenType recipientAddress typed solBalance
        usdcBalance).isValid = false := by
  rw [formPipelineValidate, formValidate, validateTransfer]
  have hv := validateAmount_six_decimal_invalid (formAmountLiteral typed)
    (formBalance tokenType solBalance usdcBalance) hfrac
  simp only [hv, Bool.and_false]

/-- Witness for the rendered-amount limit on a native SOL transfer: the
typed numeral "0.1234567" re-renders as itself, keeping 7 characters after
the decimal point, and is rejected although SOL has 9 decimal places. -/
theorem six_decimal_limit_on_rendered_amount_witness :
    (formPipelineValidate "SOL" SELF_ADDRESS largeSevenDecimals
        2000000000 0).isValid = false := by
  refine six_decimal_limit_on_rendered_amount "SOL" SELF_ADDRESS _ _ _ ?_
  rw [formAmountLiteral_largeSeven]
  decide

end Lazorkit
